import Mathlib

/-!
# category-update-producer: the reconciliation cycle of the daemon

A shallow embedding of `internal/daemon/daemon.go` and of the configuration
record of `internal/config/config.go`.

* Unsigned 64-bit identifiers are `Nat`, Go `int` identifiers and
  `time.Duration` values (nanoseconds) are `Int`; the code performs no
  arithmetic on identifiers, and the only arithmetic on durations is the
  subtraction and the halving of the cycle-time check.
* A nilable pointer field is an `Option`.
* A Go `error` is the `String` of its message.
* The collaborators (database queries, bus client, clock) are oracles: pure
  functions giving the outcome of each call. A lookup or a publish is issued
  at most once per entry of the ready set, so the oracle of a per-entry call
  is indexed by the position of that entry in the ready set.
* Everything the cycle does to the outside (log records, database calls,
  publish calls) is recorded, in program order, in a list of `Effect`s.
-/

namespace CategoryUpdateProducer

/-! ## Data model -/

/-- Modelled from the spec: the type `model.TicketStatus` is declared in the
common library, outside the sources at hand. The daemon only compares a status
with the two constants `TicketStatusOpen` and `TicketStatusPending`; every
other value is `Other`. -/
inductive TicketStatus where
  | Open
  | Pending
  | Other
  deriving DecidableEq, Repr

/-- A row of the category update queue, with the fields `RunOnce` reads. -/
structure CategoryUpdateQueue where
  GuildId : Nat
  TicketId : Int
  ChannelId : Option Nat
  PanelId : Option Int
  NewStatus : TicketStatus
  deriving DecidableEq, Repr

/-- A panel row, with the fields `RunOnce` reads. -/
structure Panel where
  PanelId : Int
  TargetCategory : Nat
  PendingCategory : Option Nat
  deriving DecidableEq, Repr

/-- Ticket identity inside the outbound event (`rpcmodel.Ticket`). -/
structure Ticket where
  GuildId : Nat
  Id : Int
  deriving DecidableEq, Repr

/-- The outbound event (`rpcmodel.TicketStatusUpdate`). -/
structure TicketStatusUpdate where
  Ticket : Ticket
  ChannelId : Nat
  NewCategoryId : Nat
  deriving DecidableEq, Repr

/-- Kafka section of the configuration. -/
structure KafkaConfig where
  Brokers : List String
  Topic : String
  deriving DecidableEq, Repr

/-- The configuration record of `config.go` (fields used by the daemon, plus
the broker list). Durations are in nanoseconds. -/
structure Config where
  ExecutionTimeout : Int
  RunFrequency : Int
  MoveCategoryAfter : Int
  Kafka : KafkaConfig
  deriving DecidableEq, Repr

/-! ## Observable effects -/

/-- Severity of a log record. -/
inductive Level where
  | Debug
  | Info
  | Warn
  | Error
  deriving DecidableEq, Repr

/-- A structured field attached to a log record. -/
inductive Field where
  | uint64 (key : String) (value : Nat)
  | int (key : String) (value : Int)
  | error (err : String)
  | duration (key : String) (value : Int)
  deriving DecidableEq, Repr

/-- One observable action of a cycle. -/
inductive Effect where
  | log (level : Level) (msg : String) (fields : List Field)
  | getReadyForUpdate (age : Int)
  | getById (panelId : Int)
  | produce (topic : String) (event : TicketStatusUpdate)
  deriving DecidableEq, Repr

/-! ## Collaborators -/

/-- The two queries the daemon issues. `GetReadyForUpdate age` is the outcome
of the ready-set query; `GetById i id` is the outcome of the panel lookup
issued while entry number `i` of the ready set is processed. -/
structure Database where
  GetReadyForUpdate : Int → Except String (List CategoryUpdateQueue)
  GetById : Nat → Int → Except String Panel

/-- The bus client. `ProduceSyncJson i topic event` is the outcome of the
publish issued while entry number `i` of the ready set is processed: `none`
on success, `some err` on failure. -/
structure Client where
  ProduceSyncJson : Nat → String → TicketStatusUpdate → Option String

/-- State of a Go channel as far as `close` is concerned. -/
inductive Chan where
  | nilChan
  | opened
  | closed
  deriving DecidableEq, Repr

/-- The daemon record. The logger is represented by the effect list that the
operations return. -/
structure Daemon where
  config : Config
  db : Database
  rpc : Client
  shutdownCh : Chan

/-- Constructor of the daemon: the shutdown channel is freshly made. -/
def NewDaemon (config : Config) (db : Database) (rpc : Client) : Daemon :=
  { config := config, db := db, rpc := rpc, shutdownCh := Chan.opened }

/-! ## Time -/

/-- Largest `time.Duration`. -/
def maxDuration : Int := 2 ^ 63 - 1

/-- Smallest `time.Duration`. -/
def minDuration : Int := -(2 ^ 63)

/-- The method `Time.Sub`: the difference of two clock readings, saturated to
the range of a duration. -/
def Sub (t u : Int) : Int :=
  if t - u > maxDuration then maxDuration
  else if t - u < minDuration then minDuration
  else t - u

/-! ## The reconciliation cycle -/

/-- Body of the loop of `RunOnce` for the entry at position `i` of the ready
set: the effects it performs, in order. Every branch ends the iteration. -/
def processTicket (d : Daemon) (i : Nat) (ticket : CategoryUpdateQueue) : List Effect :=
  match ticket.ChannelId with
  | none =>
    [Effect.log Level.Warn "Channel ID is nil"
      [Field.uint64 "guild_id" ticket.GuildId, Field.int "ticket_id" ticket.TicketId]]
  | some channelId =>
    match ticket.PanelId with
    | none =>
      [Effect.log Level.Warn "Panel ID is nil"
        [Field.uint64 "guild_id" ticket.GuildId, Field.int "ticket_id" ticket.TicketId]]
    | some panelId =>
      Effect.getById panelId ::
      match d.db.GetById i panelId with
      | Except.error err =>
        [Effect.log Level.Error "Failed to get panel" [Field.error err]]
      | Except.ok panel =>
        if panel.PanelId = 0 then
          [Effect.log Level.Info "Panel for ticket has been deleted"
            [Field.uint64 "guild_id" ticket.GuildId, Field.int "ticket_id" ticket.TicketId]]
        else
          match panel.PendingCategory with
          | none =>
            [Effect.log Level.Debug "No pending category set"
              [Field.uint64 "guild_id" ticket.GuildId, Field.int "ticket_id" ticket.TicketId]]
          | some pendingCategory =>
            let newCategoryId : Nat :=
              match ticket.NewStatus with
              | TicketStatus.Open => panel.TargetCategory
              | TicketStatus.Pending => pendingCategory
              | TicketStatus.Other => 0
            let event : TicketStatusUpdate :=
              { Ticket := { GuildId := ticket.GuildId, Id := ticket.TicketId },
                ChannelId := channelId,
                NewCategoryId := newCategoryId }
            Effect.produce d.config.Kafka.Topic event ::
            match d.rpc.ProduceSyncJson i d.config.Kafka.Topic event with
            | some err =>
              [Effect.log Level.Error "Failed to send message to Kafka" [Field.error err]]
            | none =>
              [Effect.log Level.Info "Sent category update command"
                [Field.uint64 "guild_id" ticket.GuildId, Field.int "ticket_id" ticket.TicketId,
                 Field.uint64 "new_category" newCategoryId]]

/-- The loop of `RunOnce` over the entries, the first of which has position
`i` in the ready set. -/
def processTickets (d : Daemon) : Nat → List CategoryUpdateQueue → List Effect
  | _, [] => []
  | i, ticket :: rest => processTicket d i ticket ++ processTickets d (i + 1) rest

/-- The check that closes `RunOnce`. `start` is the clock reading taken before
the ready-set query; `now k` is the `k`-th clock reading taken afterwards. -/
def timeoutCheck (d : Daemon) (start : Int) (now : Nat → Int) : List Effect :=
  if Sub (now 0) start > Int.tdiv d.config.ExecutionTimeout 2 then
    [Effect.log Level.Warn "Execution took more than 50% of the timeout"
      [Field.duration "duration" (Sub (now 1) start)]]
  else
    []

/-- One reconciliation cycle: the effects of `RunOnce`, in order. `start` is
the clock reading of the first line; `now 0` is what the clock shows once the
query and the loop are over, `now 1` what it shows at the reading after that.
On a failed ready-set query the function returns without reading the clock
again. -/
def RunOnce (d : Daemon) (start : Int) (now : Nat → Int) : List Effect :=
  Effect.log Level.Debug "Running..." [] ::
  Effect.getReadyForUpdate d.config.MoveCategoryAfter ::
  match d.db.GetReadyForUpdate d.config.MoveCategoryAfter with
  | Except.error err =>
    [Effect.log Level.Error "Failed to get tickets" [Field.error err]]
  | Except.ok tickets =>
    processTickets d 0 tickets ++ timeoutCheck d start now

/-! ## Shutdown -/

/-- The builtin `close`: closing a nil channel or a closed channel panics. -/
def close : Chan → Except String Chan
  | Chan.nilChan => Except.error "close of nil channel"
  | Chan.opened => Except.ok Chan.closed
  | Chan.closed => Except.error "close of closed channel"

/-- The method `Shutdown`: closes the shutdown channel. A panic is an
`Except.error`. -/
def Shutdown (d : Daemon) : Except String Daemon :=
  match close d.shutdownCh with
  | Except.error p => Except.error p
  | Except.ok ch => Except.ok { d with shutdownCh := ch }

/-! ## Observations on an effect list -/

/-- The publish attempts of an effect list, in order. -/
def publishes : List Effect → List (String × TicketStatusUpdate)
  | [] => []
  | Effect.produce topic event :: rest => (topic, event) :: publishes rest
  | Effect.log _ _ _ :: rest => publishes rest
  | Effect.getReadyForUpdate _ :: rest => publishes rest
  | Effect.getById _ :: rest => publishes rest

/-- The panel lookups of an effect list, in order. -/
def fetches : List Effect → List Int
  | [] => []
  | Effect.getById panelId :: rest => panelId :: fetches rest
  | Effect.log _ _ _ :: rest => fetches rest
  | Effect.getReadyForUpdate _ :: rest => fetches rest
  | Effect.produce _ _ :: rest => fetches rest

/-- Recognises the cycle-time warning. -/
def isTimeoutWarning : Effect → Bool
  | Effect.log Level.Warn msg _ => msg == "Execution took more than 50% of the timeout"
  | _ => false

/-- Number of cycle-time warnings in an effect list. -/
def timeoutWarnings (es : List Effect) : Nat :=
  (es.filter isTimeoutWarning).length

/-- Eligibility of the entry at position `i`, in the words of the cycle
description: channel id present, panel id present, panel fetched, panel not
the zero sentinel, pending category configured. -/
def eligible (db : Database) (i : Nat) (ticket : CategoryUpdateQueue) : Bool :=
  match ticket.ChannelId, ticket.PanelId with
  | some _, some panelId =>
    match db.GetById i panelId with
    | Except.ok panel => panel.PanelId != 0 && panel.PendingCategory.isSome
    | Except.error _ => false
  | _, _ => false

/-- What identifies a publish attempt: the topic, and the guild, ticket and
channel of the event. -/
def attemptKey (a : String × TicketStatusUpdate) : String × Nat × Int × Option Nat :=
  (a.1, a.2.Ticket.GuildId, a.2.Ticket.Id, some a.2.ChannelId)

/-- The attempt expected for an eligible entry of the ready set. -/
def entryKey (topic : String) (e : Nat × CategoryUpdateQueue) :
    String × Nat × Int × Option Nat :=
  (topic, e.2.GuildId, e.2.TicketId, e.2.ChannelId)

/-- Calling `Shutdown` twice in a row; the second call is made only when the
first one returned. -/
def ShutdownTwice (d : Daemon) : Except String Daemon :=
  match Shutdown d with
  | Except.error p => Except.error p
  | Except.ok d1 => Shutdown d1

/-! ## Concrete inputs -/

/-- A configuration with the default durations of `config.go`, in
nanoseconds: 5 minutes, 10 minutes, 10 minutes. -/
def defaultConfig : Config :=
  { ExecutionTimeout := 300000000000,
    RunFrequency := 600000000000,
    MoveCategoryAfter := 600000000000,
    Kafka := { Brokers := ["localhost:9092"], Topic := "category-updates" } }

/-- The panel returned by a lookup that finds nothing. -/
def zeroPanel : Panel :=
  { PanelId := 0, TargetCategory := 0, PendingCategory := none }

/-- A database answering the ready-set query with `ready` and every panel
lookup from the table `panels`, with the zero panel when the id is not there. -/
def tableDatabase (ready : Except String (List CategoryUpdateQueue)) (panels : List Panel) :
    Database :=
  { GetReadyForUpdate := fun _ => ready,
    GetById := fun _ panelId =>
      Except.ok ((panels.find? (fun p => p.PanelId == panelId)).getD zeroPanel) }

/-- A database answering the ready-set query with `ready` and failing every
panel lookup. -/
def brokenPanelDatabase (ready : List CategoryUpdateQueue) : Database :=
  { GetReadyForUpdate := fun _ => Except.ok ready,
    GetById := fun _ _ => Except.error "connection refused" }

/-- A bus client on which every publish succeeds. -/
def okClient : Client :=
  { ProduceSyncJson := fun _ _ _ => none }

/-- A bus client on which every publish fails. -/
def failingClient : Client :=
  { ProduceSyncJson := fun _ _ _ => some "broker unavailable" }

/-- A clock on which the cycle takes one microsecond. -/
def quickClock : Nat → Int := fun _ => 1000

/-- A clock on which the cycle takes the whole execution timeout. -/
def lateClock : Nat → Int := fun _ => 300000000000

/-- Entry {guild 1, ticket 5, channel 100, panel 9, status Open}. -/
def openEntry : CategoryUpdateQueue :=
  { GuildId := 1, TicketId := 5, ChannelId := some 100, PanelId := some 9,
    NewStatus := TicketStatus.Open }

/-- Entry {guild 1, ticket 6, channel 101, panel 9, status Pending}. -/
def pendingEntry : CategoryUpdateQueue :=
  { GuildId := 1, TicketId := 6, ChannelId := some 101, PanelId := some 9,
    NewStatus := TicketStatus.Pending }

/-- Entry {guild 1, ticket 7, channel absent, panel 9, status Open}. -/
def noChannelEntry : CategoryUpdateQueue :=
  { GuildId := 1, TicketId := 7, ChannelId := none, PanelId := some 9,
    NewStatus := TicketStatus.Open }

/-- Entry {guild 1, ticket 8, channel 102, panel 9, a status that is neither
Open nor Pending}. -/
def closedEntry : CategoryUpdateQueue :=
  { GuildId := 1, TicketId := 8, ChannelId := some 102, PanelId := some 9,
    NewStatus := TicketStatus.Other }

/-- Panel 9 = {target 200, pending absent}. -/
def panelNoPending : Panel :=
  { PanelId := 9, TargetCategory := 200, PendingCategory := none }

/-- Panel 9 = {target 200, pending 300}. -/
def panelWithPending : Panel :=
  { PanelId := 9, TargetCategory := 200, PendingCategory := some 300 }

/-- A daemon over a fetched ready set and a panel table. -/
def tableDaemon (ready : List CategoryUpdateQueue) (panels : List Panel) (rpc : Client) :
    Daemon :=
  NewDaemon defaultConfig (tableDatabase (Except.ok ready) panels) rpc

/-- A daemon whose ready-set query runs into the deadline. -/
def timedOutDaemon : Daemon :=
  NewDaemon defaultConfig (tableDatabase (Except.error "context deadline exceeded") []) okClient

/-! ## General facts about the loop -/

theorem publishes_append (xs ys : List Effect) :
    publishes (xs ++ ys) = publishes xs ++ publishes ys := by
  induction xs with
  | nil => rfl
  | cons x xs ih => cases x <;> simp [publishes, ih]

theorem fetches_append (xs ys : List Effect) :
    fetches (xs ++ ys) = fetches xs ++ fetches ys := by
  induction xs with
  | nil => rfl
  | cons x xs ih => cases x <;> simp [fetches, ih]

theorem processTickets_append (d : Daemon) (xs ys : List CategoryUpdateQueue) (i : Nat) :
    processTickets d i (xs ++ ys)
      = processTickets d i xs ++ processTickets d (i + xs.length) ys := by
  induction xs generalizing i with
  | nil => simp [processTickets]
  | cons x xs ih =>
    simp [processTickets, ih, List.append_assoc, Nat.add_assoc, Nat.add_comm 1]

/-- The cycle on a ready set, split around one of its entries. -/
theorem RunOnce_split (d : Daemon) (start : Int) (now : Nat → Int)
    (pre post : List CategoryUpdateQueue) (ticket : CategoryUpdateQueue)
    (hready : d.db.GetReadyForUpdate d.config.MoveCategoryAfter
      = Except.ok (pre ++ ticket :: post)) :
    RunOnce d start now
      = Effect.log Level.Debug "Running..." [] ::
        Effect.getReadyForUpdate d.config.MoveCategoryAfter ::
        (processTickets d 0 pre ++ processTicket d pre.length ticket
          ++ processTickets d (pre.length + 1) post ++ timeoutCheck d start now) := by
  simp [RunOnce, hready, processTickets_append, processTickets, List.append_assoc]

/-! ## Failure of the ready-set query -/

/-- C5: if `GetReadyForUpdate` fails, the cycle consists of the start-up debug
record, the query itself and the error record, and then returns: it performs
no panel lookup and no publish attempt. -/
theorem RunOnce_ready_failure (d : Daemon) (start : Int) (now : Nat → Int) (err : String)
    (hready : d.db.GetReadyForUpdate d.config.MoveCategoryAfter = Except.error err) :
    RunOnce d start now
        = [Effect.log Level.Debug "Running..." [],
           Effect.getReadyForUpdate d.config.MoveCategoryAfter,
           Effect.log Level.Error "Failed to get tickets" [Field.error err]]
      ∧ fetches (RunOnce d start now) = []
      ∧ publishes (RunOnce d start now) = [] := by
  simp [RunOnce, hready, fetches, publishes]

/-! ## Entries that are skipped -/

/-- C6: an entry whose channel id or panel id is absent contributes exactly one
warning-level record to the cycle, hence neither a panel lookup nor a publish
attempt, and the loop goes on with the entries after it. -/
theorem RunOnce_missing_id_skips (d : Daemon) (start : Int) (now : Nat → Int)
    (pre post : List CategoryUpdateQueue) (ticket : CategoryUpdateQueue)
    (hready : d.db.GetReadyForUpdate d.config.MoveCategoryAfter
      = Except.ok (pre ++ ticket :: post))
    (hmissing : ticket.ChannelId = none ∨ ticket.PanelId = none) :
    ∃ msg fields,
      RunOnce d start now
        = Effect.log Level.Debug "Running..." [] ::
          Effect.getReadyForUpdate d.config.MoveCategoryAfter ::
          (processTickets d 0 pre ++ [Effect.log Level.Warn msg fields]
            ++ processTickets d (pre.length + 1) post ++ timeoutCheck d start now) := by
  rw [RunOnce_split d start now pre post ticket hready]
  cases hch : ticket.ChannelId with
  | none => exact ⟨"Channel ID is nil", [Field.uint64 "guild_id" ticket.GuildId, Field.int "ticket_id" ticket.TicketId], by simp [processTicket, hch]⟩
  | some channelId =>
    cases hp : ticket.PanelId with
    | none => exact ⟨"Panel ID is nil", [Field.uint64 "guild_id" ticket.GuildId, Field.int "ticket_id" ticket.TicketId], by simp [processTicket, hch, hp]⟩
    | some panelId => simp [hch, hp] at hmissing

/-- C1: an entry whose fetched panel has no pending category contributes the
lookup and one log record to the cycle and no publish attempt, whatever its
new status, and the loop goes on with the entries after it. -/
theorem RunOnce_no_pending_category_skips (d : Daemon) (start : Int) (now : Nat → Int)
    (pre post : List CategoryUpdateQueue) (ticket : CategoryUpdateQueue)
    (channelId : Nat) (panelId : Int) (panel : Panel)
    (hready : d.db.GetReadyForUpdate d.config.MoveCategoryAfter
      = Except.ok (pre ++ ticket :: post))
    (hchannel : ticket.ChannelId = some channelId)
    (hpanel : ticket.PanelId = some panelId)
    (hfetch : d.db.GetById pre.length panelId = Except.ok panel)
    (hpending : panel.PendingCategory = none) :
    ∃ level msg fields,
      RunOnce d start now
        = Effect.log Level.Debug "Running..." [] ::
          Effect.getReadyForUpdate d.config.MoveCategoryAfter ::
          (processTickets d 0 pre
            ++ [Effect.getById panelId, Effect.log level msg fields]
            ++ processTickets d (pre.length + 1) post ++ timeoutCheck d start now) := by
  rw [RunOnce_split d start now pre post ticket hready]
  by_cases hzero : panel.PanelId = 0
  · exact ⟨Level.Info, "Panel for ticket has been deleted", [Field.uint64 "guild_id" ticket.GuildId, Field.int "ticket_id" ticket.TicketId],
      by simp [processTicket, hchannel, hpanel, hfetch, hzero]⟩
  · exact ⟨Level.Debug, "No pending category set", [Field.uint64 "guild_id" ticket.GuildId, Field.int "ticket_id" ticket.TicketId],
      by simp [processTicket, hchannel, hpanel, hfetch, hzero, hpending]⟩

/-- C7: an entry whose panel lookup returns a panel with identifier 0, or
fails, contributes the lookup and one log record to the cycle and no publish
attempt, and the loop goes on with the entries after it. The record is at info
level for the zero identifier and at error level for the failed lookup. -/
theorem RunOnce_panel_missing_or_failed_skips (d : Daemon) (start : Int) (now : Nat → Int)
    (pre post : List CategoryUpdateQueue) (ticket : CategoryUpdateQueue)
    (channelId : Nat) (panelId : Int)
    (hready : d.db.GetReadyForUpdate d.config.MoveCategoryAfter
      = Except.ok (pre ++ ticket :: post))
    (hchannel : ticket.ChannelId = some channelId)
    (hpanel : ticket.PanelId = some panelId)
    (hlookup : match d.db.GetById pre.length panelId with
      | Except.ok panel => panel.PanelId = 0
      | Except.error _ => True) :
    RunOnce d start now
      = Effect.log Level.Debug "Running..." [] ::
        Effect.getReadyForUpdate d.config.MoveCategoryAfter ::
        (processTickets d 0 pre
          ++ [Effect.getById panelId,
              match d.db.GetById pre.length panelId with
              | Except.ok _ =>
                Effect.log Level.Info "Panel for ticket has been deleted"
                  [Field.uint64 "guild_id" ticket.GuildId, Field.int "ticket_id" ticket.TicketId]
              | Except.error err =>
                Effect.log Level.Error "Failed to get panel" [Field.error err]]
          ++ processTickets d (pre.length + 1) post ++ timeoutCheck d start now) := by
  rw [RunOnce_split d start now pre post ticket hready]
  cases hfetch : d.db.GetById pre.length panelId with
  | error err => simp [processTicket, hchannel, hpanel, hfetch]
  | ok panel =>
    rw [hfetch] at hlookup
    simp [processTicket, hchannel, hpanel, hfetch, hlookup]

/-! ## Entries that are published -/

/-- C3: an entry with channel id and panel id present, whose panel is fetched
with a non-zero identifier and a present pending category, contributes the
lookup, one publish attempt and one log record to the cycle. The event
published carries the guild id, ticket id and channel id of the entry, and its
new category is the target category of the panel when the status is Open and
the pending category of the panel when the status is Pending. -/
theorem RunOnce_publishes_resolved_category (d : Daemon) (start : Int) (now : Nat → Int)
    (pre post : List CategoryUpdateQueue) (ticket : CategoryUpdateQueue)
    (channelId : Nat) (panelId : Int) (panel : Panel) (pendingCategory : Nat)
    (hready : d.db.GetReadyForUpdate d.config.MoveCategoryAfter
      = Except.ok (pre ++ ticket :: post))
    (hchannel : ticket.ChannelId = some channelId)
    (hpanel : ticket.PanelId = some panelId)
    (hfetch : d.db.GetById pre.length panelId = Except.ok panel)
    (hnonzero : panel.PanelId ≠ 0)
    (hpending : panel.PendingCategory = some pendingCategory)
    (hstatus : ticket.NewStatus = TicketStatus.Open ∨ ticket.NewStatus = TicketStatus.Pending) :
    ∃ level msg fields,
      RunOnce d start now
        = Effect.log Level.Debug "Running..." [] ::
          Effect.getReadyForUpdate d.config.MoveCategoryAfter ::
          (processTickets d 0 pre
            ++ [Effect.getById panelId,
                Effect.produce d.config.Kafka.Topic
                  { Ticket := { GuildId := ticket.GuildId, Id := ticket.TicketId },
                    ChannelId := channelId,
                    NewCategoryId :=
                      if ticket.NewStatus = TicketStatus.Open then panel.TargetCategory
                      else pendingCategory },
                Effect.log level msg fields]
            ++ processTickets d (pre.length + 1) post ++ timeoutCheck d start now) := by
  rw [RunOnce_split d start now pre post ticket hready]
  rcases hstatus with hs | hs
  · cases hout : d.rpc.ProduceSyncJson pre.length d.config.Kafka.Topic
        { Ticket := { GuildId := ticket.GuildId, Id := ticket.TicketId },
          ChannelId := channelId, NewCategoryId := panel.TargetCategory } with
    | none =>
      exact ⟨Level.Info, "Sent category update command",
        [Field.uint64 "guild_id" ticket.GuildId, Field.int "ticket_id" ticket.TicketId,
         Field.uint64 "new_category" panel.TargetCategory],
        by simp [processTicket, hchannel, hpanel, hfetch, hnonzero, hpending, hs, hout]⟩
    | some err =>
      exact ⟨Level.Error, "Failed to send message to Kafka", [Field.error err],
        by simp [processTicket, hchannel, hpanel, hfetch, hnonzero, hpending, hs, hout]⟩
  · cases hout : d.rpc.ProduceSyncJson pre.length d.config.Kafka.Topic
        { Ticket := { GuildId := ticket.GuildId, Id := ticket.TicketId },
          ChannelId := channelId, NewCategoryId := pendingCategory } with
    | none =>
      exact ⟨Level.Info, "Sent category update command",
        [Field.uint64 "guild_id" ticket.GuildId, Field.int "ticket_id" ticket.TicketId,
         Field.uint64 "new_category" pendingCategory],
        by simp [processTicket, hchannel, hpanel, hfetch, hnonzero, hpending, hs, hout]⟩
    | some err =>
      exact ⟨Level.Error, "Failed to send message to Kafka", [Field.error err],
        by simp [processTicket, hchannel, hpanel, hfetch, hnonzero, hpending, hs, hout]⟩

/-- C10: an entry that passes every guard but whose new status is neither Open
nor Pending is not skipped: it contributes the lookup, one publish attempt of
an event whose new category id is 0, and one log record. -/
theorem RunOnce_other_status_publishes_zero (d : Daemon) (start : Int) (now : Nat → Int)
    (pre post : List CategoryUpdateQueue) (ticket : CategoryUpdateQueue)
    (channelId : Nat) (panelId : Int) (panel : Panel) (pendingCategory : Nat)
    (hready : d.db.GetReadyForUpdate d.config.MoveCategoryAfter
      = Except.ok (pre ++ ticket :: post))
    (hchannel : ticket.ChannelId = some channelId)
    (hpanel : ticket.PanelId = some panelId)
    (hfetch : d.db.GetById pre.length panelId = Except.ok panel)
    (hnonzero : panel.PanelId ≠ 0)
    (hpending : panel.PendingCategory = some pendingCategory)
    (hopen : ticket.NewStatus ≠ TicketStatus.Open)
    (hpend : ticket.NewStatus ≠ TicketStatus.Pending) :
    ∃ level msg fields,
      RunOnce d start now
        = Effect.log Level.Debug "Running..." [] ::
          Effect.getReadyForUpdate d.config.MoveCategoryAfter ::
          (processTickets d 0 pre
            ++ [Effect.getById panelId,
                Effect.produce d.config.Kafka.Topic
                  { Ticket := { GuildId := ticket.GuildId, Id := ticket.TicketId },
                    ChannelId := channelId,
                    NewCategoryId := 0 },
                Effect.log level msg fields]
            ++ processTickets d (pre.length + 1) post ++ timeoutCheck d start now) := by
  rw [RunOnce_split d start now pre post ticket hready]
  cases hs : ticket.NewStatus with
  | Open => exact absurd hs hopen
  | Pending => exact absurd hs hpend
  | Other =>
    cases hout : d.rpc.ProduceSyncJson pre.length d.config.Kafka.Topic
        { Ticket := { GuildId := ticket.GuildId, Id := ticket.TicketId },
          ChannelId := channelId, NewCategoryId := 0 } with
    | none =>
      exact ⟨Level.Info, "Sent category update command",
        [Field.uint64 "guild_id" ticket.GuildId, Field.int "ticket_id" ticket.TicketId,
         Field.uint64 "new_category" 0],
        by simp [processTicket, hchannel, hpanel, hfetch, hnonzero, hpending, hs, hout]⟩
    | some err =>
      exact ⟨Level.Error, "Failed to send message to Kafka", [Field.error err],
        by simp [processTicket, hchannel, hpanel, hfetch, hnonzero, hpending, hs, hout]⟩

/-! ## Publish attempts of a whole cycle -/

theorem publishes_processTicket_rpc (d : Daemon) (rpc : Client) (i : Nat)
    (ticket : CategoryUpdateQueue) :
    publishes (processTicket { d with rpc := rpc } i ticket)
      = publishes (processTicket d i ticket) := by
  cases hc : ticket.ChannelId with
  | none => simp [processTicket, hc, publishes]
  | some channelId =>
    cases hp : ticket.PanelId with
    | none => simp [processTicket, hc, hp, publishes]
    | some panelId =>
      cases hf : d.db.GetById i panelId with
      | error err => simp [processTicket, hc, hp, hf, publishes]
      | ok panel =>
        by_cases hzero : panel.PanelId = 0
        · simp [processTicket, hc, hp, hf, hzero, publishes]
        · cases hpc : panel.PendingCategory with
          | none => simp [processTicket, hc, hp, hf, hzero, hpc, publishes]
          | some pendingCategory =>
            simp only [processTicket, hc, hp, hf, hzero, hpc, if_false, publishes]
            congr 1
            generalize d.rpc.ProduceSyncJson _ _ _ = mine
            generalize rpc.ProduceSyncJson _ _ _ = other
            cases mine <;> cases other <;> rfl

theorem publishes_processTickets_rpc (d : Daemon) (rpc : Client)
    (tickets : List CategoryUpdateQueue) (i : Nat) :
    publishes (processTickets { d with rpc := rpc } i tickets)
      = publishes (processTickets d i tickets) := by
  induction tickets generalizing i with
  | nil => rfl
  | cons t ts ih =>
    simp only [processTickets, publishes_append, ih, publishes_processTicket_rpc]

theorem publishes_timeoutCheck (d : Daemon) (start : Int) (now : Nat → Int) :
    publishes (timeoutCheck d start now) = [] := by
  unfold timeoutCheck
  split <;> rfl

theorem attempts_processTicket (d : Daemon) (i : Nat) (ticket : CategoryUpdateQueue) :
    (publishes (processTicket d i ticket)).map attemptKey
      = if eligible d.db i ticket then [entryKey d.config.Kafka.Topic (i, ticket)] else [] := by
  cases hc : ticket.ChannelId with
  | none => simp [processTicket, eligible, hc, publishes]
  | some channelId =>
    cases hp : ticket.PanelId with
    | none => simp [processTicket, eligible, hc, hp, publishes]
    | some panelId =>
      cases hf : d.db.GetById i panelId with
      | error err => simp [processTicket, eligible, hc, hp, hf, publishes]
      | ok panel =>
        by_cases hzero : panel.PanelId = 0
        · simp [processTicket, eligible, hc, hp, hf, hzero, publishes]
        · cases hpc : panel.PendingCategory with
          | none => simp [processTicket, eligible, hc, hp, hf, hzero, hpc, publishes]
          | some pendingCategory =>
            simp only [processTicket, eligible, hc, hp, hf, hzero, hpc, if_false, publishes]
            generalize d.rpc.ProduceSyncJson _ _ _ = outcome
            cases outcome <;> simp [publishes, attemptKey, entryKey, hc, hzero]

theorem attempts_processTickets (d : Daemon) (tickets : List CategoryUpdateQueue) (i : Nat) :
    (publishes (processTickets d i tickets)).map attemptKey
      = ((tickets.enumFrom i).filter (fun e => eligible d.db e.1 e.2)).map
          (entryKey d.config.Kafka.Topic) := by
  induction tickets generalizing i with
  | nil => rfl
  | cons t ts ih =>
    simp only [processTickets, publishes_append, List.map_append, attempts_processTicket, ih,
      List.enumFrom_cons, List.filter_cons]
    by_cases h : eligible d.db i t <;> simp [h]

/-- C4: the publish attempts of a cycle do not depend on which publishes
succeed or fail, and on a fetched ready set they are exactly one attempt per
eligible entry, to the configured topic, in the order of the ready set. -/
theorem RunOnce_attempts_every_eligible_entry (d : Daemon) (start : Int) (now : Nat → Int)
    (tickets : List CategoryUpdateQueue)
    (hready : d.db.GetReadyForUpdate d.config.MoveCategoryAfter = Except.ok tickets) :
    (∀ rpc : Client,
        publishes (RunOnce { d with rpc := rpc } start now) = publishes (RunOnce d start now))
      ∧ (publishes (RunOnce d start now)).map attemptKey
          = ((tickets.enum).filter (fun e => eligible d.db e.1 e.2)).map
              (entryKey d.config.Kafka.Topic) := by
  constructor
  · intro rpc
    simp only [RunOnce, hready, publishes, publishes_append, publishes_processTickets_rpc]
    simp [publishes_timeoutCheck]
  · simp only [RunOnce, hready, publishes, publishes_append, publishes_timeoutCheck,
      List.append_nil, List.enum]
    exact attempts_processTickets d tickets 0

/-! ## The scenario of an Open entry -/

/-- C2, as stated, fails: with ready set [{guild 1, ticket 5, channel 100,
panel 9, Open}] and panel 9 = {target 200, pending absent} the cycle makes no
publish attempt at all; it looks the panel up and logs that no pending
category is set. -/
theorem scenario_no_pending_publishes_nothing :
    RunOnce (tableDaemon [openEntry] [panelNoPending] okClient) 0 quickClock
        = [Effect.log Level.Debug "Running..." [],
           Effect.getReadyForUpdate 600000000000,
           Effect.getById 9,
           Effect.log Level.Debug "No pending category set"
             [Field.uint64 "guild_id" 1, Field.int "ticket_id" 5]]
      ∧ publishes (RunOnce (tableDaemon [openEntry] [panelNoPending] okClient) 0 quickClock)
        ≠ [("category-updates",
            { Ticket := { GuildId := 1, Id := 5 }, ChannelId := 100, NewCategoryId := 200 })] := by
  decide

/-- C2, amended: with ready set [{guild 1, ticket 5, channel 100, panel 9,
Open}] and panel 9 = {target 200, pending category `pending`}, the cycle makes
no publish attempt when the pending category is absent, and publishes the
event {guild 1, ticket 5, channel 100, new category 200} to the configured
topic exactly once when it is present. -/
theorem scenario_open_entry (d : Daemon) (start : Int) (now : Nat → Int) (pending : Option Nat)
    (hready : d.db.GetReadyForUpdate d.config.MoveCategoryAfter
      = Except.ok [{ GuildId := 1, TicketId := 5, ChannelId := some 100, PanelId := some 9,
                     NewStatus := TicketStatus.Open }])
    (hfetch : d.db.GetById 0 9
      = Except.ok { PanelId := 9, TargetCategory := 200, PendingCategory := pending }) :
    publishes (RunOnce d start now)
      = match pending with
        | none => []
        | some _ =>
          [(d.config.Kafka.Topic,
            { Ticket := { GuildId := 1, Id := 5 }, ChannelId := 100, NewCategoryId := 200 })] := by
  cases pending with
  | none =>
    simp [RunOnce, hready, processTickets, processTicket, hfetch, publishes, publishes_append,
      publishes_timeoutCheck]
  | some p =>
    simp only [RunOnce, hready, processTickets, processTicket, hfetch, publishes,
      publishes_append, publishes_timeoutCheck]
    generalize d.rpc.ProduceSyncJson _ _ _ = outcome
    cases outcome <;> simp [publishes]

/-! ## The cycle-time warning -/

theorem isTimeoutWarning_processTicket (d : Daemon) (i : Nat) (ticket : CategoryUpdateQueue) :
    (processTicket d i ticket).filter isTimeoutWarning = [] := by
  cases hc : ticket.ChannelId with
  | none => simp [processTicket, hc, isTimeoutWarning]
  | some channelId =>
    cases hp : ticket.PanelId with
    | none => simp [processTicket, hc, hp, isTimeoutWarning]
    | some panelId =>
      cases hf : d.db.GetById i panelId with
      | error err => simp [processTicket, hc, hp, hf, isTimeoutWarning]
      | ok panel =>
        by_cases hzero : panel.PanelId = 0
        · simp [processTicket, hc, hp, hf, hzero, isTimeoutWarning]
        · cases hpc : panel.PendingCategory with
          | none => simp [processTicket, hc, hp, hf, hzero, hpc, isTimeoutWarning]
          | some pendingCategory =>
            simp only [processTicket, hc, hp, hf, hzero, hpc, if_false]
            generalize d.rpc.ProduceSyncJson _ _ _ = outcome
            cases outcome <;> simp [isTimeoutWarning]

theorem timeoutWarnings_processTickets (d : Daemon) (tickets : List CategoryUpdateQueue)
    (i : Nat) : timeoutWarnings (processTickets d i tickets) = 0 := by
  induction tickets generalizing i with
  | nil => rfl
  | cons t ts ih =>
    have h := ih (i + 1)
    simp only [timeoutWarnings, List.length_eq_zero] at h ⊢
    simp [processTickets, List.filter_append, isTimeoutWarning_processTicket, h]

/-- C8, as stated, fails: when the ready-set query runs into the deadline the
cycle has lasted the whole execution timeout, more than half of it, and yet no
cycle-time warning is logged. -/
theorem timed_out_query_logs_no_warning :
    Sub (lateClock 0) 0 > Int.tdiv timedOutDaemon.config.ExecutionTimeout 2
      ∧ timeoutWarnings (RunOnce timedOutDaemon 0 lateClock) = 0 := by
  decide

/-- C8, amended: a cycle whose ready-set query failed never logs the
cycle-time warning. A cycle whose ready-set query succeeded ends with the
check: it logs the warning exactly once, as its last action, when the elapsed
time read after the loop is greater than `ExecutionTimeout / 2`, and does not
log it otherwise. -/
theorem RunOnce_timeout_warning (d : Daemon) (start : Int) (now : Nat → Int) :
    match d.db.GetReadyForUpdate d.config.MoveCategoryAfter with
    | Except.error _ => timeoutWarnings (RunOnce d start now) = 0
    | Except.ok tickets =>
      RunOnce d start now
          = (Effect.log Level.Debug "Running..." [] ::
             Effect.getReadyForUpdate d.config.MoveCategoryAfter ::
             processTickets d 0 tickets)
            ++ (if Sub (now 0) start > Int.tdiv d.config.ExecutionTimeout 2 then
                  [Effect.log Level.Warn "Execution took more than 50% of the timeout"
                    [Field.duration "duration" (Sub (now 1) start)]]
                else [])
        ∧ timeoutWarnings (Effect.log Level.Debug "Running..." [] ::
            Effect.getReadyForUpdate d.config.MoveCategoryAfter ::
            processTickets d 0 tickets) = 0
        ∧ timeoutWarnings (RunOnce d start now)
            = if Sub (now 0) start > Int.tdiv d.config.ExecutionTimeout 2 then 1 else 0 := by
  cases hready : d.db.GetReadyForUpdate d.config.MoveCategoryAfter with
  | error err => simp [RunOnce, hready, timeoutWarnings, isTimeoutWarning]
  | ok tickets =>
    have hloop := timeoutWarnings_processTickets d tickets 0
    simp only [timeoutWarnings, List.length_eq_zero] at hloop
    refine ⟨?_, ?_, ?_⟩
    · simp [RunOnce, hready, timeoutCheck]
    · simp [timeoutWarnings, List.filter_cons, isTimeoutWarning, hloop]
    · by_cases hlate : Sub (now 0) start > Int.tdiv d.config.ExecutionTimeout 2
      · simp [RunOnce, hready, timeoutCheck, timeoutWarnings, List.filter_cons,
          List.filter_append, isTimeoutWarning, hloop, hlate]
      · simp [RunOnce, hready, timeoutCheck, timeoutWarnings, List.filter_cons,
          List.filter_append, isTimeoutWarning, hloop, hlate]

/-! ## Shutdown -/

/-- C9, as stated, fails: on a freshly constructed daemon the second of two
`Shutdown` calls closes a closed channel, which panics. -/
theorem ShutdownTwice_panics :
    ShutdownTwice (NewDaemon defaultConfig (tableDatabase (Except.ok []) []) okClient)
      = Except.error "close of closed channel" := by
  rfl

/-- C9, amended: on a daemon whose shutdown channel is open, `Shutdown`
succeeds and changes nothing but the channel, which it leaves closed; a
further `Shutdown` on the resulting daemon fails, so calling it twice fails. -/
theorem Shutdown_succeeds_once (d : Daemon) (hopen : d.shutdownCh = Chan.opened) :
    Shutdown d = Except.ok { d with shutdownCh := Chan.closed }
      ∧ Shutdown { d with shutdownCh := Chan.closed } = Except.error "close of closed channel"
      ∧ ShutdownTwice d = Except.error "close of closed channel" := by
  simp [ShutdownTwice, Shutdown, close, hopen]

/-! ## The theorems at concrete inputs -/

/-- The failing ready-set query at the timed-out daemon. -/
theorem RunOnce_ready_failure_witness :
    RunOnce timedOutDaemon 0 lateClock
        = [Effect.log Level.Debug "Running..." [],
           Effect.getReadyForUpdate 600000000000,
           Effect.log Level.Error "Failed to get tickets"
             [Field.error "context deadline exceeded"]]
      ∧ fetches (RunOnce timedOutDaemon 0 lateClock) = []
      ∧ publishes (RunOnce timedOutDaemon 0 lateClock) = [] :=
  RunOnce_ready_failure timedOutDaemon 0 lateClock "context deadline exceeded" rfl

/-- The entry without channel id, between two other entries. -/
theorem RunOnce_missing_id_skips_witness :
    ∃ msg fields,
      RunOnce (tableDaemon [openEntry, noChannelEntry, pendingEntry] [panelWithPending] okClient)
          0 quickClock
        = [Effect.log Level.Debug "Running..." [],
           Effect.getReadyForUpdate 600000000000,
           Effect.getById 9,
           Effect.produce "category-updates"
             { Ticket := { GuildId := 1, Id := 5 }, ChannelId := 100, NewCategoryId := 200 },
           Effect.log Level.Info "Sent category update command"
             [Field.uint64 "guild_id" 1, Field.int "ticket_id" 5,
              Field.uint64 "new_category" 200],
           Effect.log Level.Warn msg fields,
           Effect.getById 9,
           Effect.produce "category-updates"
             { Ticket := { GuildId := 1, Id := 6 }, ChannelId := 101, NewCategoryId := 300 },
           Effect.log Level.Info "Sent category update command"
             [Field.uint64 "guild_id" 1, Field.int "ticket_id" 6,
              Field.uint64 "new_category" 300]] :=
  RunOnce_missing_id_skips
    (tableDaemon [openEntry, noChannelEntry, pendingEntry] [panelWithPending] okClient)
    0 quickClock [openEntry] [pendingEntry] noChannelEntry rfl (Or.inl rfl)

/-- A Pending entry whose panel has no pending category, followed by an entry
without channel id. -/
theorem RunOnce_no_pending_category_skips_witness :
    ∃ level msg fields,
      RunOnce (tableDaemon [pendingEntry, noChannelEntry] [panelNoPending] okClient)
          0 quickClock
        = [Effect.log Level.Debug "Running..." [],
           Effect.getReadyForUpdate 600000000000,
           Effect.getById 9,
           Effect.log level msg fields,
           Effect.log Level.Warn "Channel ID is nil"
             [Field.uint64 "guild_id" 1, Field.int "ticket_id" 7]] :=
  RunOnce_no_pending_category_skips
    (tableDaemon [pendingEntry, noChannelEntry] [panelNoPending] okClient)
    0 quickClock [] [noChannelEntry] pendingEntry 101 9 panelNoPending rfl rfl rfl rfl rfl

/-- A deleted panel, and a failing panel lookup. -/
theorem RunOnce_panel_missing_or_failed_skips_witness :
    RunOnce (tableDaemon [openEntry] [] okClient) 0 quickClock
        = [Effect.log Level.Debug "Running..." [],
           Effect.getReadyForUpdate 600000000000,
           Effect.getById 9,
           Effect.log Level.Info "Panel for ticket has been deleted"
             [Field.uint64 "guild_id" 1, Field.int "ticket_id" 5]]
      ∧ RunOnce (NewDaemon defaultConfig (brokenPanelDatabase [openEntry]) okClient) 0 quickClock
        = [Effect.log Level.Debug "Running..." [],
           Effect.getReadyForUpdate 600000000000,
           Effect.getById 9,
           Effect.log Level.Error "Failed to get panel" [Field.error "connection refused"]] :=
  ⟨RunOnce_panel_missing_or_failed_skips (tableDaemon [openEntry] [] okClient)
      0 quickClock [] [] openEntry 100 9 rfl rfl rfl rfl,
   RunOnce_panel_missing_or_failed_skips
      (NewDaemon defaultConfig (brokenPanelDatabase [openEntry]) okClient)
      0 quickClock [] [] openEntry 100 9 rfl rfl rfl trivial⟩

/-- The Pending entry with panel 9 = {target 200, pending 300}, on a bus that
refuses every publish and a clock that makes the cycle late. -/
theorem RunOnce_publishes_resolved_category_witness :
    ∃ level msg fields,
      RunOnce (tableDaemon [pendingEntry] [panelWithPending] failingClient) 0 lateClock
        = [Effect.log Level.Debug "Running..." [],
           Effect.getReadyForUpdate 600000000000,
           Effect.getById 9,
           Effect.produce "category-updates"
             { Ticket := { GuildId := 1, Id := 6 }, ChannelId := 101, NewCategoryId := 300 },
           Effect.log level msg fields,
           Effect.log Level.Warn "Execution took more than 50% of the timeout"
             [Field.duration "duration" 300000000000]] :=
  RunOnce_publishes_resolved_category
    (tableDaemon [pendingEntry] [panelWithPending] failingClient)
    0 lateClock [] [] pendingEntry 101 9 panelWithPending 300 rfl rfl rfl rfl (by decide) rfl
    (Or.inr rfl)

/-- The entry with another status and panel 9 = {target 200, pending 300}. -/
theorem RunOnce_other_status_publishes_zero_witness :
    ∃ level msg fields,
      RunOnce (tableDaemon [closedEntry] [panelWithPending] okClient) 0 quickClock
        = [Effect.log Level.Debug "Running..." [],
           Effect.getReadyForUpdate 600000000000,
           Effect.getById 9,
           Effect.produce "category-updates"
             { Ticket := { GuildId := 1, Id := 8 }, ChannelId := 102, NewCategoryId := 0 },
           Effect.log level msg fields] :=
  RunOnce_other_status_publishes_zero
    (tableDaemon [closedEntry] [panelWithPending] okClient)
    0 quickClock [] [] closedEntry 102 9 panelWithPending 300 rfl rfl rfl rfl (by decide) rfl
    (by decide) (by decide)

/-- Four entries, one of them without channel id, on a bus that refuses every
publish: the three eligible ones are attempted, in order. -/
theorem RunOnce_attempts_every_eligible_entry_witness :
    (∀ rpc : Client,
        publishes (RunOnce
          { tableDaemon [openEntry, noChannelEntry, pendingEntry, closedEntry]
              [panelWithPending] failingClient with rpc := rpc } 0 quickClock)
          = publishes (RunOnce
              (tableDaemon [openEntry, noChannelEntry, pendingEntry, closedEntry]
                [panelWithPending] failingClient) 0 quickClock))
      ∧ (publishes (RunOnce
            (tableDaemon [openEntry, noChannelEntry, pendingEntry, closedEntry]
              [panelWithPending] failingClient) 0 quickClock)).map attemptKey
          = [("category-updates", 1, 5, some 100), ("category-updates", 1, 6, some 101),
             ("category-updates", 1, 8, some 102)] :=
  RunOnce_attempts_every_eligible_entry
    (tableDaemon [openEntry, noChannelEntry, pendingEntry, closedEntry]
      [panelWithPending] failingClient)
    0 quickClock [openEntry, noChannelEntry, pendingEntry, closedEntry] rfl

/-- The scenario with the pending category absent, and with it present. -/
theorem scenario_open_entry_witness :
    publishes (RunOnce (tableDaemon [openEntry] [panelNoPending] okClient) 0 quickClock) = []
      ∧ publishes (RunOnce (tableDaemon [openEntry] [panelWithPending] okClient) 0 quickClock)
        = [("category-updates",
            { Ticket := { GuildId := 1, Id := 5 }, ChannelId := 100, NewCategoryId := 200 })] :=
  ⟨scenario_open_entry (tableDaemon [openEntry] [panelNoPending] okClient)
      0 quickClock none rfl rfl,
   scenario_open_entry (tableDaemon [openEntry] [panelWithPending] okClient)
      0 quickClock (some 300) rfl rfl⟩

/-- A freshly constructed daemon. -/
theorem Shutdown_succeeds_once_witness :
    Shutdown (NewDaemon defaultConfig (tableDatabase (Except.ok []) []) okClient)
        = Except.ok
            { NewDaemon defaultConfig (tableDatabase (Except.ok []) []) okClient with
              shutdownCh := Chan.closed }
      ∧ Shutdown
          { NewDaemon defaultConfig (tableDatabase (Except.ok []) []) okClient with
            shutdownCh := Chan.closed }
        = Except.error "close of closed channel"
      ∧ ShutdownTwice (NewDaemon defaultConfig (tableDatabase (Except.ok []) []) okClient)
        = Except.error "close of closed channel" :=
  Shutdown_succeeds_once (NewDaemon defaultConfig (tableDatabase (Except.ok []) []) okClient) rfl

end CategoryUpdateProducer
